import Mathlib

/-!
Shallow embedding of the identity-and-access-control core of the
Node_Js_Unit_1 repository: password hashing and comparison
(`src/Unit 6/Lesson-23/models/user.js`), session login
(`src/Unit 6/Lesson-23/controllers/userController.js`), JWT issuance and
verification plus the bearer guard and course linking
(`src/Unit 6/Lesson-28/controllers/userController.js`), the course join
endpoint (`src/Unit 6/Lesson-26/Lesson-26/controllers/courseController.js`),
the rate limiter configuration (`src/Unit 6/Lesson-26-fixed/middlewares/ratelimit.js`),
and the apiToken pre-save hook (`src/Unit 6/Lesson-28/models/user.js`).

External npm libraries (bcrypt, jsonwebtoken, express-rate-limit,
rand-token, passport-local-mongoose) are not part of the repository's
sources; where their behaviour decides a claim they are modelled from the
spec and their published documentation, with cryptographic one-way
functions idealised as injective functions.  MongoDB update operators
(`$addToSet`, `findByIdAndUpdate`) are modelled by their documented
semantics on in-memory lists of documents.
-/

set_option autoImplicit false

namespace NodeCore

/-! ### Identifiers and the document store

Mongo ObjectIds are opaque; we model them as `Nat`.  A raw identifier
arriving in a request is `Option Oid`: `none` stands for a string that
fails `mongoose.isValidObjectId`, `some o` for a well-formed id. -/

abbrev Oid := Nat

/-! ### JavaScript string primitives

`String.prototype.trim`, `.toLowerCase`, `.split(" ")` and byte
truncation, modelled as executable functions on the character list of a
Lean string. -/

/-- JS `s.trim()`: strip leading and trailing whitespace. -/
def jsTrim (s : String) : String :=
  String.mk (((s.data.dropWhile Char.isWhitespace).reverse.dropWhile
    Char.isWhitespace).reverse)

/-- JS `s.toLowerCase()` (ASCII case mapping suffices here). -/
def jsToLower (s : String) : String :=
  String.mk (s.data.map Char.toLower)

/-- JS `s.split(" ")`: split on every single space, keeping empty pieces
(`"a  b".split(" ")` is `["a","","b"]`, `"".split(" ")` is `[""]`). -/
def jsSplitSpace (s : String) : List String :=
  (s.data.splitOn ' ').map String.mk

/-- A stored User document, restricted to the fields the link operations
touch: its id and its `courses` array of Course references
(`src/Unit 6/Lesson-28/models/user.js`, `courses: [{type: ObjectId}]`). -/
structure UserRec where
  uid : Oid
  courses : List Oid
deriving DecidableEq

/-- A stored Course document (only its id matters to the linker). -/
structure CourseRec where
  cid : Oid
deriving DecidableEq

/-- The slice of the database the link operations read and write. -/
structure DB where
  users : List UserRec
  courses : List CourseRec
deriving DecidableEq

/-- MongoDB `$addToSet`: append the value to the array only when it is
not already present (documented semantics of the update operator used at
`userController.js:424-428` and `courseController.js:468-472`). -/
def addToSet (xs : List Oid) (x : Oid) : List Oid :=
  if x ∈ xs then xs else xs ++ [x]

/-- Models `User.findById(id)` on the modelled store. -/
def findUser (db : DB) (uid : Oid) : Option UserRec :=
  db.users.find? (fun u => u.uid = uid)

/-- Models `Course.findById(id)` on the modelled store. -/
def findCourse (db : DB) (cid : Oid) : Option CourseRec :=
  db.courses.find? (fun c => c.cid = cid)

/-- Models `User.findByIdAndUpdate(uid, {$addToSet: {courses: cid}})`: one atomic
per-document update; a missing user id makes it a no-op (Mongo resolves
with `null` and no write). -/
def addCourseToUser (db : DB) (uid : Oid) (cid : Oid) : DB :=
  { db with
    users := db.users.map (fun u =>
      if u.uid = uid then { u with courses := addToSet u.courses cid } else u) }

/-- Outcome of `linkCourse` (`src/Unit 6/Lesson-28/controllers/userController.js:397-433`):
each constructor is one of its flash/redirect exits. -/
inductive LinkResult where
  | invalidId
  | userNotFound
  | courseNotFound
  | linked
deriving DecidableEq

/-- Models `linkCourse` (`userController.js:397-433`): validate both ids, look up
both documents, and only then perform the single `$addToSet` update. -/
def linkCourse (db : DB) (rawId rawCourseId : Option Oid) : DB × LinkResult :=
  match rawId, rawCourseId with
  | some uid, some cid =>
    match findUser db uid with
    | none => (db, LinkResult.userNotFound)
    | some _ =>
      match findCourse db cid with
      | none => (db, LinkResult.courseNotFound)
      | some c => (addCourseToUser db uid c.cid, LinkResult.linked)
  | _, _ => (db, LinkResult.invalidId)

/-- Outcome of `join` (`courseController.js:456-478`). -/
inductive JoinResult where
  | mustLogIn
  | invalidCourseId
  | success
deriving DecidableEq

/-- Models `join` (`src/Unit 6/Lesson-26/Lesson-26/controllers/courseController.js:456-478`):
requires a logged-in user (`req.user`) and a well-formed course id, then
runs `$addToSet` directly — it never checks that the course (or even the
user document) exists in the store. -/
def join (db : DB) (currentUser : Option Oid) (rawCourseId : Option Oid) :
    DB × JoinResult :=
  match currentUser with
  | none => (db, JoinResult.mustLogIn)
  | some uid =>
    match rawCourseId with
    | none => (db, JoinResult.invalidCourseId)
    | some cid => (addCourseToUser db uid cid, JoinResult.success)

/-- The `courses` array of user `uid` in `db` (empty if the user is absent). -/
def coursesOf (db : DB) (uid : Oid) : List Oid :=
  match findUser db uid with
  | some u => u.courses
  | none => []

/-! ### Password hashing (bcrypt)

`src/Unit 6/Lesson-23/models/user.js` hashes with `bcrypt.hash(password, 10)`
in a pre-save hook and compares with `bcrypt.compare` in
`passwordComparison`.  bcrypt is an external library; it is modelled from
the spec (§4.1) and bcrypt's published behaviour: the digest embeds the
cost and the salt, the key fed to the one-way core is the plaintext
truncated to its first 72 bytes (documented bcrypt behaviour), and the
one-way core itself is idealised as an injective (collision-free)
function of cost, salt and truncated key — one-wayness is a cryptographic
property outside the model. -/

/-- bcrypt truncates the key to its first 72 bytes; plaintexts are
modelled as strings of single-byte characters, so the first 72
characters. -/
def bcryptKey (plaintext : String) : String :=
  String.mk (plaintext.data.take 72)

/-- A structurally valid bcrypt digest: embedded cost, embedded salt, and
the one-way core output.  The core is idealised as the injective function
remembering (cost, salt, truncated key). -/
structure BDigest where
  cost : Nat
  salt : Nat
  core : Nat × Nat × String
deriving DecidableEq

/-- Idealised bcrypt one-way core (injective in cost, salt and key). -/
def bcryptCore (cost salt : Nat) (key : String) : Nat × Nat × String :=
  (cost, salt, key)

/-- Models `bcrypt.hash(plaintext, cost)` with the freshly drawn random salt made
an explicit argument (the library draws it from a CSPRNG on every call). -/
def bcryptHash (cost salt : Nat) (plaintext : String) : BDigest :=
  { cost := cost, salt := salt, core := bcryptCore cost salt (bcryptKey plaintext) }

/-- Verification against a structurally valid digest: recompute the core
with the embedded cost and salt and compare. -/
def bverify (plaintext : String) (d : BDigest) : Bool :=
  bcryptCore d.cost d.salt (bcryptKey plaintext) = d.core

/-- A stored `password` field is a raw string that either parses as a
structural bcrypt digest or is malformed (truncated record, wrong format). -/
inductive StoredDigest where
  | valid (d : BDigest)
  | malformed (raw : String)
deriving DecidableEq

/-- Models `passwordComparison` (`src/Unit 6/Lesson-23/models/user.js:66-68`),
i.e. `bcrypt.compare(inputPassword, this.password)`: a total Boolean
function; on a structurally invalid digest it resolves to `false` rather
than raising (documented library behaviour, spec §4.1). -/
def passwordComparison (inputPassword : String) : StoredDigest → Bool
  | StoredDigest.valid d => bverify inputPassword d
  | StoredDigest.malformed _ => false

/-! ### Session login (`authenticate`, Lesson-23)

`src/Unit 6/Lesson-23/controllers/userController.js:315-354`.  The
response surface is a flash message plus a redirect target, and on
success the session records the user id. -/

/-- A stored user as the Lesson-23 login path reads it: normalized email,
first name, bcrypt digest in `password`. -/
structure L23User where
  uid : Oid
  first : String
  email : String
  password : StoredDigest
deriving DecidableEq

/-- The observable outcome of Lesson-23 `authenticate`: the flash
category and message, the redirect target, and the session user id it
sets (none on failure). -/
structure L23LoginResult where
  flashKind : String
  message : String
  redirect : String
  sessionUserId : Option Oid
deriving DecidableEq

/-- Models `authenticate` (`src/Unit 6/Lesson-23/controllers/userController.js:315-354`):
trims and lower-cases the email, requires both fields, looks the user up
by email, compares via `passwordComparison`, and on success stores the
user id in the session.  Each early exit reproduces the source's flash
message and redirect. -/
def authenticate (db : List L23User) (rawEmail rawPassword : String) :
    L23LoginResult :=
  let email := jsToLower (jsTrim rawEmail)
  let password := rawPassword
  if email = "" ∨ password = "" then
    { flashKind := "error", message := "Email and password are required.",
      redirect := "/users/login", sessionUserId := none }
  else
    match db.find? (fun u => u.email = email) with
    | none =>
      { flashKind := "error", message := "Account not found.",
        redirect := "/users/login", sessionUserId := none }
    | some u =>
      if passwordComparison password u.password then
        { flashKind := "success",
          message := "Welcome back, " ++ (if u.first = "" then "User" else u.first) ++ "!",
          redirect := "/users", sessionUserId := some u.uid }
      else
        { flashKind := "error", message := "Incorrect password.",
          redirect := "/users/login", sessionUserId := none }

/-! ### JWT issuance and verification

`src/Unit 6/Lesson-28/controllers/userController.js` signs with
`jwt.sign({sub, email}, secret, {expiresIn})` and verifies with
`jwt.verify(token, secret)`.  jsonwebtoken is an external library; it is
modelled from the spec (§4.3): the token carries the claim set
{sub, email, iat, exp} and an HMAC signature over it, with the MAC
idealised as an injective function of the secret and the signed claims
(forging a tag without the secret is a cryptographic assumption outside
the model).  Times are seconds since the epoch. -/

/-- The signed claim set: subject id, email, issued-at, expires-at. -/
structure Claims where
  sub : String
  email : String
  iat : Nat
  exp : Nat
deriving DecidableEq

/-- Idealised MAC tag over a claim set (injective in secret and claims). -/
def macTag (secret : String) (c : Claims) : String × Claims :=
  (secret, c)

/-- A compact token: the (decoded) payload plus its signature bytes. -/
structure Token where
  payload : Claims
  sig : String × Claims
deriving DecidableEq

/-- Internal error causes of `jwt.verify` (spec §4.3: distinguishable for
logs, uniform over HTTP). -/
inductive TokenError where
  | badSignature
  | expired
deriving DecidableEq

/-- Models `jwt.sign({sub, email}, secret, {expiresIn})`: the library stamps
`iat = now` and `exp = now + expiresInSecs` and signs the payload. -/
def jwtSign (sub email secret : String) (now expiresInSecs : Nat) : Token :=
  let c : Claims := { sub := sub, email := email, iat := now, exp := now + expiresInSecs }
  { payload := c, sig := macTag secret c }

/-- Models `jwt.verify(token, secret)` at clock time `now`: signature check
first, then expiry (jsonwebtoken raises TokenExpiredError when
`now >= exp`); on success the decoded claims are returned. -/
def jwtVerify (t : Token) (secret : String) (now : Nat) : Except TokenError Claims :=
  if t.sig ≠ macTag secret t.payload then Except.error TokenError.badSignature
  else if t.payload.exp ≤ now then Except.error TokenError.expired
  else Except.ok t.payload

/-- Models `JWT_SECRET` resolution (`userController.js:335` and `:366`): the
environment value, or the hard-coded development default. -/
def jwtSecretOf : Option String → String
  | some s => s
  | none => "dev_secret_change_me"

/-- One day in seconds: the `"1d"` default of `JWT_EXPIRES_IN`
(`userController.js:336`), as jsonwebtoken's ms-format parser reads it. -/
def oneDaySecs : Nat := 86400

/-- Models `JWT_EXPIRES_IN` resolution, with the ms-format string abstracted to
its value in seconds: the configured value or the one-day default. -/
def expiresInOf : Option Nat → Nat
  | some n => n
  | none => oneDaySecs

/-! ### JSON response bodies

Bodies are association lists of field name to value, so that the exact
key set of each response is part of the model.  The only nested object
the API-auth endpoints produce is the `buildApiUser` object, whose fields
are all strings. -/

/-- A JSON value as these endpoints produce them: a string, a boolean, a
signed token, or a flat object of string fields. -/
inductive JVal where
  | s (v : String)
  | b (v : Bool)
  | tok (t : Token)
  | o (fields : List (String × String))
deriving DecidableEq

/-- A JSON response body: ordered field list. -/
abbrev JBody := List (String × JVal)

/-- The field names of a body, in order. -/
def bodyKeys (body : JBody) : List String :=
  body.map Prod.fst

/-- An HTTP JSON response: status code and body. -/
structure ApiResp where
  status : Nat
  body : JBody
deriving DecidableEq

/-- Models `buildApiUser` (`userController.js:39-44`): the API-facing projection
of a user document — id, first, last, email, and nothing else. -/
def buildApiUser (id first last email : String) : List (String × String) :=
  [("id", id), ("first", first), ("last", last), ("email", email)]

/-! ### API token issuance (`apiAuthenticate`, Lesson-28)

`src/Unit 6/Lesson-28/controllers/userController.js:305-349`.  The stored
user carries passport-local-mongoose hash+salt fields.  At line 325 the
controller runs `const authResult = user.authenticate(password);`
WITHOUT `await`: the plugin method, invoked with no callback, returns a
pending Promise, and a Promise has no `error` property, so the following
`if (authResult?.error)` reads `undefined` and its 401 branch is dead —
the supplied password is never actually checked on this path. -/

/-- A stored user as the API-auth path reads it.  `secret` stands for the
passport-local-mongoose hash+salt pair; it is carried in the document but
never consulted by `apiAuthenticate` (see `authResultError`). -/
structure L28AuthUser where
  id : String
  first : String
  last : String
  email : String
  secret : String
deriving DecidableEq

/-- Models `authResult?.error` for the un-awaited
`user.authenticate(password)` call at `userController.js:325`: the value
bound to `authResult` is a pending Promise, which has no `error`
property, so the optional-chained read is `undefined` (`none`) for every
password and every stored credential. -/
def authResultError (_password : String) (_u : L28AuthUser) : Option String :=
  none

/-- Models `apiAuthenticate` (`userController.js:305-349`): trim/lower-case the
email, 400 when either field is empty, look up by email (401 when
absent), test `authResult?.error` (a dead 401 branch, since the
`authenticate` call is not awaited — see `authResultError`), then sign a
JWT and return `{success, token, user}`. -/
def apiAuthenticate (db : List L28AuthUser) (secretEnv : Option String)
    (expiresEnv : Option Nat) (now : Nat) (rawEmail rawPassword : String) : ApiResp :=
  let email := jsToLower (jsTrim rawEmail)
  let password := rawPassword
  if email = "" ∨ password = "" then
    { status := 400,
      body := [("success", JVal.b false),
               ("error", JVal.s "Email and password are required.")] }
  else
    match db.find? (fun u => u.email = email) with
    | none =>
      { status := 401,
        body := [("success", JVal.b false),
                 ("error", JVal.s "Invalid email or password.")] }
    | some u =>
      match authResultError password u with
      | some _ =>
        { status := 401,
          body := [("success", JVal.b false),
                   ("error", JVal.s "Invalid email or password.")] }
      | none =>
        let tok := jwtSign u.id u.email (jwtSecretOf secretEnv) now (expiresInOf expiresEnv)
        { status := 200,
          body := [("success", JVal.b true),
                   ("token", JVal.tok tok),
                   ("user", JVal.o (buildApiUser u.id u.first u.last u.email))] }

/-! ### Bearer guard (`getBearerToken` / `verifyJWT`, Lesson-28) -/

/-- Models `getBearerToken` (`userController.js:31-36`): trim the
`Authorization` header (absent header reads as `""`), split on spaces,
and accept only `Bearer <token>` with a non-empty token, returning the
trimmed token. -/
def getBearerToken (authHeader : Option String) : Option String :=
  let auth :=
    jsTrim
      (match authHeader with
       | some a => a
       | none => "")
  match jsSplitSpace auth with
  | ty :: rawToken :: _ =>
    if ty = "Bearer" ∧ rawToken ≠ "" then some (jsTrim rawToken) else none
  | _ => none

/-- The principal context `verifyJWT` attaches on success
(`req.apiUser = {_id: payload.sub, email: payload.email}`). -/
structure ApiUserCtx where
  uid : String
  email : String
deriving DecidableEq

/-- Outcome of the bearer guard: a JSON denial with a status code, or the
request proceeding with the attached principal context. -/
inductive GuardResult where
  | denied (status : Nat) (body : JBody)
  | allowed (apiUser : ApiUserCtx)
deriving DecidableEq

/-- Models `verifyJWT` (`userController.js:356-381`).  `decode` models the
base64url parse of the compact serialization back into a token (the
string `jwt.verify` receives); a string that is not a well-formed token
decodes to `none` and raises inside the same `try`, so it lands in the
same catch-all 401 as a bad signature or expiry. -/
def verifyJWT (decode : String → Option Token) (secretEnv : Option String)
    (now : Nat) (authHeader : Option String) : GuardResult :=
  match getBearerToken authHeader with
  | none =>
    GuardResult.denied 401
      [("success", JVal.b false), ("error", JVal.s "Missing Bearer token.")]
  | some jwtToken =>
    match decode jwtToken with
    | none =>
      GuardResult.denied 401
        [("success", JVal.b false), ("error", JVal.s "Invalid or expired token.")]
    | some t =>
      match jwtVerify t (jwtSecretOf secretEnv) now with
      | Except.error _ =>
        GuardResult.denied 401
          [("success", JVal.b false), ("error", JVal.s "Invalid or expired token.")]
      | Except.ok payload =>
        GuardResult.allowed { uid := payload.sub, email := payload.email }

/-! ### Rate limiter

`src/Unit 6/Lesson-26-fixed/middlewares/ratelimit.js` (and the Unit 5
copy) configure `express-rate-limit` with `windowMs: 60*1000, max: 5`.
The library is external; its fixed-window counter is modelled from the
spec (§4.4): per-key state {count, start}, first request initialises
{1, now}, requests inside the window increment the count and are denied
once it exceeds max, and a request after the window has elapsed resets
the state to {1, now}.  Times are in milliseconds. -/

/-- The configured window: one minute in milliseconds. -/
def windowMs : Nat := 60 * 1000

/-- The configured maximum: 5 requests per window per key. -/
def maxPerWindow : Nat := 5

/-- Per-key rate-limit state: request count and window start. -/
structure RLEntry where
  count : Nat
  start : Nat
deriving DecidableEq

/-- One admission decision for a key whose state is `e` (`none` when the
key has no live entry), at clock `now`: returns the new state and whether
the request is admitted. -/
def rlStep (e : Option RLEntry) (now : Nat) : RLEntry × Bool :=
  match e with
  | none => ({ count := 1, start := now }, true)
  | some e =>
    if e.start + windowMs ≤ now then
      ({ count := 1, start := now }, true)
    else
      ({ count := e.count + 1, start := e.start }, e.count + 1 ≤ maxPerWindow)

/-- The admission decisions for a sequence of request times from one key,
starting from state `e`. -/
def rlRun (e : Option RLEntry) : List Nat → List Bool
  | [] => []
  | t :: ts => (rlStep e t).2 :: rlRun (some (rlStep e t).1) ts

/-- The key's state after a sequence of request times. -/
def rlFinal (e : Option RLEntry) : List Nat → Option RLEntry
  | [] => e
  | t :: ts => rlFinal (some (rlStep e t).1) ts

/-! ### apiToken pre-save hook and query-parameter guard (Lesson-28) -/

/-- A stored user as the apiToken paths read it: id, email, and the
optional `apiToken` field (`none` models an absent/null field). -/
structure L28TokenUser where
  id : String
  email : String
  apiToken : Option String
deriving DecidableEq

/-- JS falsiness of `this.apiToken`: absent, null or the empty string. -/
def tokenMissing : Option String → Bool
  | none => true
  | some s => s = ""

/-- The `pre("save")` hook (`src/Unit 6/Lesson-28/models/user.js:96-102`):
when `apiToken` is falsy, set it to `randToken.generate(16)`; `fresh` is
that freshly generated token, passed explicitly (rand-token's
`generate(16)` returns a 16-character string). -/
def preSaveApiToken (fresh : String) (u : L28TokenUser) : L28TokenUser :=
  if tokenMissing u.apiToken then { u with apiToken := some fresh } else u

/-- Models `verifyToken` (`userController.js:273-292`): trim the `apiToken`
query parameter, error when missing, look the user up by token, attach
`{_id, email}` on a hit, error otherwise.  `Except.error` carries the
`new Error(...)` message handed to `next`. -/
def verifyToken (db : List L28TokenUser) (rawApiToken : Option String) :
    Except String ApiUserCtx :=
  let apiToken :=
    jsTrim
      (match rawApiToken with
       | some a => a
       | none => "")
  if apiToken = "" then Except.error "Missing apiToken query parameter."
  else
    match db.find? (fun u => u.apiToken = some apiToken) with
    | some u => Except.ok { uid := u.id, email := u.email }
    | none => Except.error "Invalid API token."

/-! ## Helper lemmas -/

theorem addToSet_self_mem (xs : List Oid) (x : Oid) : x ∈ addToSet xs x := by
  unfold addToSet
  by_cases h : x ∈ xs <;> simp [h]

theorem addToSet_eq_of_mem {xs : List Oid} {x : Oid} (h : x ∈ xs) :
    addToSet xs x = xs := by
  simp [addToSet, h]

theorem addToSet_idem (xs : List Oid) (x : Oid) :
    addToSet (addToSet xs x) x = addToSet xs x :=
  addToSet_eq_of_mem (addToSet_self_mem xs x)

theorem addToSet_count_self {xs : List Oid} {x : Oid} (h : xs.Nodup) :
    (addToSet xs x).count x = 1 := by
  unfold addToSet
  by_cases hx : x ∈ xs
  · simpa [hx] using List.count_eq_one_of_mem h hx
  · simp [hx, List.count_append, List.count_eq_zero_of_not_mem hx]

theorem addToSet_nodup {xs : List Oid} (x : Oid) (h : xs.Nodup) :
    (addToSet xs x).Nodup := by
  unfold addToSet
  by_cases hx : x ∈ xs
  · simpa [hx] using h
  · simp [hx, List.nodup_append, h]

/-- Updating one user's courses commutes with looking that user up. -/
theorem findUser_addCourseToUser (db : DB) (uid cid : Oid) :
    findUser (addCourseToUser db uid cid) uid
      = (findUser db uid).map
          (fun u => { u with courses := addToSet u.courses cid }) := by
  show (db.users.map _).find? _ = _
  unfold findUser
  induction db.users with
  | nil => rfl
  | cons a l ih =>
    by_cases h : a.uid = uid
    · simp [h]
    · simp [List.find?, h, ih]

/-- The courses collection is untouched by the user update. -/
theorem findCourse_addCourseToUser (db : DB) (uid cid c : Oid) :
    findCourse (addCourseToUser db uid cid) c = findCourse db c :=
  rfl

/-- After one `$addToSet`, repeating it is the identity on the store. -/
theorem addCourseToUser_idem (db : DB) (uid cid : Oid) :
    addCourseToUser (addCourseToUser db uid cid) uid cid
      = addCourseToUser db uid cid := by
  unfold addCourseToUser
  simp only [List.map_map]
  congr 1
  apply List.map_congr_left
  intro a _
  by_cases h : a.uid = uid
  · simp [Function.comp, h, addToSet_idem]
  · simp [Function.comp, h]

theorem findCourse_some_cid {db : DB} {cid : Oid} {c : CourseRec}
    (h : findCourse db cid = some c) : c.cid = cid := by
  have := List.find?_some h
  simpa using this

/-! ## Claims -/

/-- C2: when both the user and the course resolve and the user's stored
`courses` array is duplicate-free, a `linkCourse` call succeeds and
leaves exactly one reference to the course in the user's `courses` set;
the set stays duplicate-free, and any further `linkCourse` (or `join`)
call for the same pair — any interleaving of concurrent callers being a
sequence of atomic `$addToSet` updates — is a no-op on the stored state. -/
theorem claim_C2_link_idempotent (db : DB) (uid cid : Oid) (u : UserRec)
    (hu : findUser db uid = some u) (hc : (findCourse db cid).isSome)
    (hnd : u.courses.Nodup) :
    (linkCourse db (some uid) (some cid)).2 = LinkResult.linked
    ∧ (coursesOf (linkCourse db (some uid) (some cid)).1 uid).count cid = 1
    ∧ (coursesOf (linkCourse db (some uid) (some cid)).1 uid).Nodup
    ∧ linkCourse (linkCourse db (some uid) (some cid)).1 (some uid) (some cid)
        = ((linkCourse db (some uid) (some cid)).1, LinkResult.linked)
    ∧ join (linkCourse db (some uid) (some cid)).1 (some uid) (some cid)
        = ((linkCourse db (some uid) (some cid)).1, JoinResult.success) := by
  obtain ⟨c, hcs⟩ := Option.isSome_iff_exists.mp hc
  have hcc : c.cid = cid := findCourse_some_cid hcs
  subst hcc
  have hlink : linkCourse db (some uid) (some c.cid)
      = (addCourseToUser db uid c.cid, LinkResult.linked) := by
    simp only [linkCourse, hu, hcs]
  have hfind1 : findUser (addCourseToUser db uid c.cid) uid
      = some { u with courses := addToSet u.courses c.cid } := by
    rw [findUser_addCourseToUser, hu]
    rfl
  have hcourses : coursesOf (addCourseToUser db uid c.cid) uid
      = addToSet u.courses c.cid := by
    unfold coursesOf
    rw [hfind1]
  refine ⟨?_, ?_, ?_, ?_, ?_⟩
  · rw [hlink]
  · rw [hlink]
    show (coursesOf (addCourseToUser db uid c.cid) uid).count c.cid = 1
    rw [hcourses]
    exact addToSet_count_self hnd
  · rw [hlink]
    show (coursesOf (addCourseToUser db uid c.cid) uid).Nodup
    rw [hcourses]
    exact addToSet_nodup _ hnd
  · rw [hlink]
    show linkCourse (addCourseToUser db uid c.cid) (some uid) (some c.cid) = _
    have hfc : findCourse (addCourseToUser db uid c.cid) c.cid = some c := by
      rw [findCourse_addCourseToUser, hcs]
    simp only [linkCourse, hfind1, hfc, addCourseToUser_idem]
  · rw [hlink]
    show join (addCourseToUser db uid c.cid) (some uid) (some c.cid) = _
    simp only [join, addCourseToUser_idem]

/-- Witness for C2 at a concrete store: user 1 with courses `[5]`,
course 7 present. -/
theorem claim_C2_witness :
    (linkCourse ⟨[⟨1, [5]⟩], [⟨7⟩]⟩ (some 1) (some 7)).2 = LinkResult.linked
    ∧ (coursesOf (linkCourse ⟨[⟨1, [5]⟩], [⟨7⟩]⟩ (some 1) (some 7)).1 1).count 7 = 1
    ∧ (coursesOf (linkCourse ⟨[⟨1, [5]⟩], [⟨7⟩]⟩ (some 1) (some 7)).1 1).Nodup
    ∧ linkCourse (linkCourse ⟨[⟨1, [5]⟩], [⟨7⟩]⟩ (some 1) (some 7)).1 (some 1) (some 7)
        = ((linkCourse ⟨[⟨1, [5]⟩], [⟨7⟩]⟩ (some 1) (some 7)).1, LinkResult.linked)
    ∧ join (linkCourse ⟨[⟨1, [5]⟩], [⟨7⟩]⟩ (some 1) (some 7)).1 (some 1) (some 7)
        = ((linkCourse ⟨[⟨1, [5]⟩], [⟨7⟩]⟩ (some 1) (some 7)).1, JoinResult.success) :=
  claim_C2_link_idempotent ⟨[⟨1, [5]⟩], [⟨7⟩]⟩ 1 7 ⟨1, [5]⟩ (by decide) (by decide)
    (by decide)

/-- C3 counterexample: in the store holding only user 1 and no courses,
the course id 99 resolves to no stored entity, yet `join` (the Lesson-26
link operation the claim covers) reports success and mutates the user
document — it neither fails with NotFound nor leaves the state
unchanged. -/
theorem claim_C3_counterexample :
    findCourse ⟨[⟨1, []⟩], []⟩ 99 = none
    ∧ (join ⟨[⟨1, []⟩], []⟩ (some 1) (some 99)).2 = JoinResult.success
    ∧ (join ⟨[⟨1, []⟩], []⟩ (some 1) (some 99)).1 ≠ ⟨[⟨1, []⟩], []⟩ := by
  decide

/-- C3 (amended): the Lesson-28 `linkCourse` is check-then-mutate — any
outcome other than `linked` leaves the store untouched, and `linked` is
reached exactly when both raw ids are well-formed and both documents
resolve.  The Lesson-26 `join` does not satisfy the claim: it checks only
login and id well-formedness, runs `$addToSet` unconditionally, and
reports success (a no-op, not NotFound, when the user id is absent). -/
theorem claim_C3_linkCourse_atomic (db : DB) (rawId rawCourseId : Option Oid) :
    ((linkCourse db rawId rawCourseId).2 ≠ LinkResult.linked →
      (linkCourse db rawId rawCourseId).1 = db)
    ∧ ((linkCourse db rawId rawCourseId).2 = LinkResult.linked ↔
        ∃ uid cid, rawId = some uid ∧ rawCourseId = some cid
          ∧ (findUser db uid).isSome ∧ (findCourse db cid).isSome) := by
  cases rawId with
  | none => simp [linkCourse]
  | some uid =>
    cases rawCourseId with
    | none => simp [linkCourse]
    | some cid =>
      cases hu : findUser db uid with
      | none => simp [linkCourse, hu]
      | some u =>
        cases hcs : findCourse db cid with
        | none => simp [linkCourse, hu, hcs]
        | some c => simp [linkCourse, hu, hcs]

/-- Witness for C3 at a concrete store: a malformed course id is refused
with the store unchanged. -/
theorem claim_C3_witness :
    (((linkCourse ⟨[⟨1, []⟩], []⟩ (some 1) none).2 ≠ LinkResult.linked →
      (linkCourse ⟨[⟨1, []⟩], []⟩ (some 1) none).1 = ⟨[⟨1, []⟩], []⟩)
    ∧ ((linkCourse ⟨[⟨1, []⟩], []⟩ (some 1) none).2 = LinkResult.linked ↔
        ∃ uid cid, (some 1 : Option Oid) = some uid ∧ (none : Option Oid) = some cid
          ∧ (findUser ⟨[⟨1, []⟩], []⟩ uid).isSome
          ∧ (findCourse ⟨[⟨1, []⟩], []⟩ cid).isSome)) :=
  claim_C3_linkCourse_atomic ⟨[⟨1, []⟩], []⟩ (some 1) none

/-- C1: evaluation of both credential-verification paths at the failing
input.  In the Lesson-28 `apiAuthenticate`, because
`user.authenticate(password)` is not awaited (its 401 branch is dead),
the wrong password `wrongpass` for the existing account `real@x.com`
still receives the 200 success body with a signed token, while the
unknown email receives the generic 401 — the responses differ, exposing
account existence and, worse, issuing a token without a credential
check.  In the Lesson-23 session login, the flash messages
"Account not found." and "Incorrect password." likewise distinguish the
two cases.  Both contradict the claimed single generic failure shape. -/
theorem claim_C1_failing_input :
    (apiAuthenticate [⟨"u1", "Ada", "L", "real@x.com", "rightpass"⟩] none none 0
        "real@x.com" "wrongpass").status = 200
    ∧ bodyKeys (apiAuthenticate [⟨"u1", "Ada", "L", "real@x.com", "rightpass"⟩] none none 0
        "real@x.com" "wrongpass").body = ["success", "token", "user"]
    ∧ (apiAuthenticate [⟨"u1", "Ada", "L", "real@x.com", "rightpass"⟩] none none 0
        "unknown@x.com" "anything").status = 401
    ∧ apiAuthenticate [⟨"u1", "Ada", "L", "real@x.com", "rightpass"⟩] none none 0
        "real@x.com" "wrongpass"
      ≠ apiAuthenticate [⟨"u1", "Ada", "L", "real@x.com", "rightpass"⟩] none none 0
        "unknown@x.com" "anything"
    ∧ (authenticate [⟨1, "Ada", "real@x.com", StoredDigest.valid (bcryptHash 10 42 "rightpass")⟩]
        "unknown@x.com" "anything").message = "Account not found."
    ∧ (authenticate [⟨1, "Ada", "real@x.com", StoredDigest.valid (bcryptHash 10 42 "rightpass")⟩]
        "real@x.com" "wrongpass").message = "Incorrect password." := by
  decide

/-- C4 counterexample: bcrypt hashes only the first 72 bytes of the key,
so the 72-character plaintext `aa…a` verifies against the digest of the
distinct 73-character plaintext `aa…a` — `verify(p1, hash(p2))` is true
for some `p1 ≠ p2`. -/
theorem claim_C4_counterexample :
    String.mk (List.replicate 72 'a') ≠ String.mk (List.replicate 73 'a')
    ∧ bverify (String.mk (List.replicate 72 'a'))
        (bcryptHash 10 0 (String.mk (List.replicate 73 'a'))) = true := by
  decide

/-- C4 (amended): `verify(p, hash(p))` always holds; two `hash(p)` calls
with distinct freshly drawn salts produce distinct digests; and
`verify(p1, hash(p2))` is false whenever the 72-byte-truncated keys of
`p1` and `p2` differ (rather than whenever `p1 ≠ p2`, which fails beyond
72 bytes). -/
theorem claim_C4_hasher (cost salt s1 s2 : Nat) (p p1 p2 : String) :
    bverify p (bcryptHash cost salt p) = true
    ∧ (s1 ≠ s2 → bcryptHash cost s1 p ≠ bcryptHash cost s2 p)
    ∧ (bcryptKey p1 ≠ bcryptKey p2 →
        bverify p1 (bcryptHash cost salt p2) = false) := by
  refine ⟨?_, ?_, ?_⟩
  · simp [bverify, bcryptHash]
  · intro hs heq
    exact hs (congrArg BDigest.salt heq)
  · intro hk
    simp only [bverify, bcryptHash, bcryptCore, decide_eq_false_iff_not]
    intro heq
    exact hk (congrArg (fun t => t.2.2) heq)

/-- Witness for C4 with cost 10, salts 1 and 2, plaintexts `secret123`,
`a`, `b`. -/
theorem claim_C4_witness :
    bverify "secret123" (bcryptHash 10 1 "secret123") = true
    ∧ ((1 : Nat) ≠ 2 → bcryptHash 10 1 "secret123" ≠ bcryptHash 10 2 "secret123")
    ∧ (bcryptKey "a" ≠ bcryptKey "b" →
        bverify "a" (bcryptHash 10 1 "b") = false) :=
  claim_C4_hasher 10 1 1 2 "secret123" "a" "b"

/-- C9: `passwordComparison` is a total Boolean function — on every
input pair it returns `true` or `false` (no exceptional outcome exists in
its type), and on a structurally invalid stored digest it returns
`false` rather than raising. -/
theorem claim_C9_verify_never_throws (p raw : String) (d : BDigest) :
    passwordComparison p (StoredDigest.malformed raw) = false
    ∧ (passwordComparison p (StoredDigest.valid d) = true
        ∨ passwordComparison p (StoredDigest.valid d) = false) := by
  refine ⟨rfl, ?_⟩
  cases h : passwordComparison p (StoredDigest.valid d)
  · exact Or.inr rfl
  · exact Or.inl rfl

/-- C5: a token issued with the default expiry verifies immediately with
the original subject and email among the claims; its embedded expiry is
exactly one day after issuance; at any clock at or past the expiry,
verification fails with the expired error; and tampering with a valid
token — replacing its signed payload while keeping its signature, or
replacing its signature — fails signature verification at any clock. -/
theorem claim_C5_jwt_roundtrip (sub email secret : String) (now t n : Nat)
    (c : Claims) (g : String × Claims)
    (hlater : now + oneDaySecs ≤ t)
    (hc : c ≠ (jwtSign sub email secret now (expiresInOf none)).payload)
    (hg : g ≠ (jwtSign sub email secret now (expiresInOf none)).sig) :
    jwtVerify (jwtSign sub email secret now (expiresInOf none)) secret now
      = Except.ok { sub := sub, email := email, iat := now, exp := now + oneDaySecs }
    ∧ (jwtSign sub email secret now (expiresInOf none)).payload.exp
        = now + oneDaySecs
    ∧ jwtVerify (jwtSign sub email secret now (expiresInOf none)) secret t
        = Except.error TokenError.expired
    ∧ jwtVerify
        { payload := c, sig := (jwtSign sub email secret now (expiresInOf none)).sig }
        secret n
        = Except.error TokenError.badSignature
    ∧ jwtVerify
        { payload := (jwtSign sub email secret now (expiresInOf none)).payload, sig := g }
        secret n
        = Except.error TokenError.badSignature := by
  refine ⟨?_, rfl, ?_, ?_, ?_⟩
  · show jwtVerify _ _ _ = _
    rw [jwtVerify, if_neg (by simp [jwtSign]), if_neg (by simp [oneDaySecs, expiresInOf, jwtSign])]
    rfl
  · rw [jwtVerify, if_neg (by simp [jwtSign]), if_pos (by simpa [jwtSign, expiresInOf] using hlater)]
  · rw [jwtVerify, if_pos]
    show (jwtSign sub email secret now (expiresInOf none)).sig ≠ macTag secret c
    intro h
    exact hc (congrArg Prod.snd h).symm
  · rw [jwtVerify, if_pos]
    show g ≠ macTag secret (jwtSign sub email secret now (expiresInOf none)).payload
    exact hg

/-- Witness for C5: subject `u1`, email `e@x.com`, issued at 0, checked
expired at 86400; tampered payload changes the email, tampered signature
swaps the signing secret. -/
theorem claim_C5_witness :
    jwtVerify (jwtSign "u1" "e@x.com" "s" 0 (expiresInOf none)) "s" 0
      = Except.ok { sub := "u1", email := "e@x.com", iat := 0, exp := 0 + oneDaySecs }
    ∧ (jwtSign "u1" "e@x.com" "s" 0 (expiresInOf none)).payload.exp = 0 + oneDaySecs
    ∧ jwtVerify (jwtSign "u1" "e@x.com" "s" 0 (expiresInOf none)) "s" 86400
        = Except.error TokenError.expired
    ∧ jwtVerify
        { payload := { sub := "u1", email := "evil@x.com", iat := 0, exp := 86400 },
          sig := (jwtSign "u1" "e@x.com" "s" 0 (expiresInOf none)).sig } "s" 0
        = Except.error TokenError.badSignature
    ∧ jwtVerify
        { payload := (jwtSign "u1" "e@x.com" "s" 0 (expiresInOf none)).payload,
          sig := ("x", { sub := "u1", email := "e@x.com", iat := 0, exp := 86400 }) } "s" 0
        = Except.error TokenError.badSignature :=
  claim_C5_jwt_roundtrip "u1" "e@x.com" "s" 0 86400 0
    { sub := "u1", email := "evil@x.com", iat := 0, exp := 86400 }
    ("x", { sub := "u1", email := "e@x.com", iat := 0, exp := 86400 })
    (by decide) (by decide) (by decide)

/-- Demonstration token and decode function for the bearer-guard witness. -/
def demoToken : Token :=
  jwtSign "u1" "e@x.com" "dev_secret_change_me" 0 86400

/-- A decode that recognises every compact serialization as `demoToken`. -/
def demoDecode (_s : String) : Option Token :=
  some demoToken

/-- C6: every outcome of the bearer guard `verifyJWT` that is a denial —
missing or malformed `Authorization` header, undecodable token, bad
signature, or expiry — carries HTTP status 401 and a body whose only
fields are the machine-readable `success` and `error`; and when the
header yields a token that decodes and verifies, the guard attaches
exactly the resolved subject id and email as the request's principal
context. -/
theorem claim_C6_bearer_guard (decode : String → Option Token)
    (secretEnv : Option String) (now : Nat) (authHeader : Option String)
    (st : Nat) (body : JBody) (tk : String) (t : Token) (c : Claims) :
    (verifyJWT decode secretEnv now authHeader = GuardResult.denied st body →
      st = 401 ∧ bodyKeys body = ["success", "error"])
    ∧ (getBearerToken authHeader = some tk → decode tk = some t →
        jwtVerify t (jwtSecretOf secretEnv) now = Except.ok c →
        verifyJWT decode secretEnv now authHeader
          = GuardResult.allowed { uid := c.sub, email := c.email }) := by
  constructor
  · intro h
    cases hb : getBearerToken authHeader with
    | none =>
      simp only [verifyJWT, hb] at h
      injection h with h1 h2
      subst h1
      subst h2
      exact ⟨rfl, rfl⟩
    | some tk' =>
      cases hd : decode tk' with
      | none =>
        simp only [verifyJWT, hb, hd] at h
        injection h with h1 h2
        subst h1
        subst h2
        exact ⟨rfl, rfl⟩
      | some t' =>
        cases hv : jwtVerify t' (jwtSecretOf secretEnv) now with
        | error e =>
          simp only [verifyJWT, hb, hd, hv] at h
          injection h with h1 h2
          subst h1
          subst h2
          exact ⟨rfl, rfl⟩
        | ok payload =>
          simp only [verifyJWT, hb, hd, hv] at h
          exact GuardResult.noConfusion h
  · intro hb hd hv
    simp only [verifyJWT, hb, hd, hv]

/-- Witness for C6: the header `Bearer abc` decodes to the demo token,
which verifies under the default secret at clock 1, so the guard attaches
subject `u1` and email `e@x.com`. -/
theorem claim_C6_witness :
    (verifyJWT demoDecode none 1 (some "Bearer abc")
        = GuardResult.denied 401 [] →
      (401 : Nat) = 401 ∧ bodyKeys [] = ["success", "error"])
    ∧ (getBearerToken (some "Bearer abc") = some "abc" →
        demoDecode "abc" = some demoToken →
        jwtVerify demoToken (jwtSecretOf none) 1
          = Except.ok { sub := "u1", email := "e@x.com", iat := 0, exp := 86400 } →
        verifyJWT demoDecode none 1 (some "Bearer abc")
          = GuardResult.allowed { uid := "u1", email := "e@x.com" }) :=
  claim_C6_bearer_guard demoDecode none 1 (some "Bearer abc") 401 [] "abc" demoToken
    { sub := "u1", email := "e@x.com", iat := 0, exp := 86400 }

/-- C7: with the configured window of 60 s and maximum of 5, six requests
from one key all arriving within 10 s of the first are admitted exactly
up to the fifth and the sixth is denied; and once the window has elapsed,
the next request is admitted with the counter restarted at 1 (new window
start), not accumulated. -/
theorem claim_C7_rate_limiter (t1 t2 t3 t4 t5 t6 t7 : Nat)
    (h2 : t2 ≤ t1 + 10000) (h3 : t3 ≤ t1 + 10000) (h4 : t4 ≤ t1 + 10000)
    (h5 : t5 ≤ t1 + 10000) (h6 : t6 ≤ t1 + 10000)
    (h7 : t1 + windowMs ≤ t7) :
    rlRun none [t1, t2, t3, t4, t5, t6]
      = [true, true, true, true, true, false]
    ∧ rlFinal none [t1, t2, t3, t4, t5, t6] = some { count := 6, start := t1 }
    ∧ rlStep (rlFinal none [t1, t2, t3, t4, t5, t6]) t7
        = ({ count := 1, start := t7 }, true) := by
  have h7' : t1 + 60000 ≤ t7 := h7
  have e1 : rlStep none t1 = ({ count := 1, start := t1 }, true) := rfl
  have e2 : rlStep (some { count := 1, start := t1 }) t2
      = ({ count := 2, start := t1 }, true) := by
    simp only [rlStep, windowMs, maxPerWindow]
    rw [if_neg (by omega)]
    rfl
  have e3 : rlStep (some { count := 2, start := t1 }) t3
      = ({ count := 3, start := t1 }, true) := by
    simp only [rlStep, windowMs, maxPerWindow]
    rw [if_neg (by omega)]
    rfl
  have e4 : rlStep (some { count := 3, start := t1 }) t4
      = ({ count := 4, start := t1 }, true) := by
    simp only [rlStep, windowMs, maxPerWindow]
    rw [if_neg (by omega)]
    rfl
  have e5 : rlStep (some { count := 4, start := t1 }) t5
      = ({ count := 5, start := t1 }, true) := by
    simp only [rlStep, windowMs, maxPerWindow]
    rw [if_neg (by omega)]
    rfl
  have e6 : rlStep (some { count := 5, start := t1 }) t6
      = ({ count := 6, start := t1 }, false) := by
    simp only [rlStep, windowMs, maxPerWindow]
    rw [if_neg (by omega)]
    rfl
  have e7 : rlStep (some { count := 6, start := t1 }) t7
      = ({ count := 1, start := t7 }, true) := by
    simp only [rlStep, windowMs]
    rw [if_pos (by omega)]
  refine ⟨?_, ?_, ?_⟩
  · simp only [rlRun, e1, e2, e3, e4, e5, e6]
  · simp only [rlFinal, e1, e2, e3, e4, e5, e6]
  · simp only [rlFinal, e1, e2, e3, e4, e5, e6, e7]

/-- Witness for C7: requests at 0, 2, 4, 6, 8, 10 seconds, then one at
61 seconds. -/
theorem claim_C7_witness :
    rlRun none [0, 2000, 4000, 6000, 8000, 10000]
      = [true, true, true, true, true, false]
    ∧ rlFinal none [0, 2000, 4000, 6000, 8000, 10000] = some { count := 6, start := 0 }
    ∧ rlStep (rlFinal none [0, 2000, 4000, 6000, 8000, 10000]) 61000
        = ({ count := 1, start := 61000 }, true) :=
  claim_C7_rate_limiter 0 2000 4000 6000 8000 10000 61000
    (by decide) (by decide) (by decide) (by decide) (by decide) (by decide)

/-- Returns `true` when every nested object value in a body exposes exactly the
`buildApiUser` field names — in particular no hash or salt field. -/
def userFieldsOk (body : JBody) : Bool :=
  body.all (fun kv =>
    match kv.2 with
    | JVal.o fields => fields.map Prod.fst = ["id", "first", "last", "email"]
    | _ => true)

/-- C8 counterexample: a successful token issuance for the stored account
`a@x.com` returns the body fields `success, token, user` — not the
claimed `token, expiresIn, principal`; in particular no `expiresIn`
field exists anywhere in the success body. -/
theorem claim_C8_counterexample :
    bodyKeys (apiAuthenticate [⟨"u1", "Ada", "L", "a@x.com", "pw1234"⟩] none none 0
        "a@x.com" "pw1234").body = ["success", "token", "user"]
    ∧ bodyKeys (apiAuthenticate [⟨"u1", "Ada", "L", "a@x.com", "pw1234"⟩] none none 0
        "a@x.com" "pw1234").body ≠ ["token", "expiresIn", "principal"]
    ∧ ¬ "expiresIn" ∈ bodyKeys (apiAuthenticate [⟨"u1", "Ada", "L", "a@x.com", "pw1234"⟩]
        none none 0 "a@x.com" "pw1234").body
    ∧ (apiAuthenticate [⟨"u1", "Ada", "L", "a@x.com", "pw1234"⟩] none none 0
        "a@x.com" "pw1234").status = 200 := by
  decide

/-- C8 (amended): every `apiAuthenticate` response is either the success
shape — status 200 with body fields exactly `success, token, user` — or
a failure with status 400 or 401 and body fields exactly
`success, error`; and every nested object in any response (the `user`
projection built by `buildApiUser`) carries exactly `id, first, last,
email`, so no hashed-secret field is ever serialized. -/
theorem claim_C8_response_shape (db : List L28AuthUser) (secretEnv : Option String)
    (expiresEnv : Option Nat) (now : Nat) (e p : String) :
    (((apiAuthenticate db secretEnv expiresEnv now e p).status = 200
        ∧ bodyKeys (apiAuthenticate db secretEnv expiresEnv now e p).body
            = ["success", "token", "user"])
      ∨ (((apiAuthenticate db secretEnv expiresEnv now e p).status = 400
            ∨ (apiAuthenticate db secretEnv expiresEnv now e p).status = 401)
          ∧ bodyKeys (apiAuthenticate db secretEnv expiresEnv now e p).body
              = ["success", "error"]))
    ∧ userFieldsOk (apiAuthenticate db secretEnv expiresEnv now e p).body = true := by
  simp only [apiAuthenticate]
  split
  · exact ⟨Or.inr ⟨Or.inl rfl, rfl⟩, rfl⟩
  · split
    · exact ⟨Or.inr ⟨Or.inr rfl, rfl⟩, rfl⟩
    · split
      · exact ⟨Or.inr ⟨Or.inr rfl, rfl⟩, rfl⟩
      · exact ⟨Or.inl ⟨rfl, rfl⟩, rfl⟩

/-- C10: the pre-save hook guarantees the apiToken invariant — whatever
the incoming document carries, the saved document's `apiToken` is never
missing (the hook fills a falsy field with the fresh 16-character token
and leaves a present one unchanged), and the query-parameter guard
`verifyToken` then resolves the saved user by its token. -/
theorem claim_C10_apiToken_invariant (u : L28TokenUser) (fresh s : String)
    (hlen : fresh.length = 16)
    (hs : (preSaveApiToken fresh u).apiToken = some s)
    (hts : jsTrim s = s) (hne : s ≠ "") :
    tokenMissing (preSaveApiToken fresh u).apiToken = false
    ∧ (tokenMissing u.apiToken = true → (preSaveApiToken fresh u).apiToken = some fresh)
    ∧ (tokenMissing u.apiToken = false → (preSaveApiToken fresh u).apiToken = u.apiToken)
    ∧ verifyToken [preSaveApiToken fresh u] (some s)
        = Except.ok { uid := (preSaveApiToken fresh u).id,
                      email := (preSaveApiToken fresh u).email } := by
  have hfne : fresh ≠ "" := by
    intro h
    rw [h] at hlen
    exact absurd hlen (by decide)
  refine ⟨?_, ?_, ?_, ?_⟩
  · cases hm : tokenMissing u.apiToken with
    | true =>
      simp only [preSaveApiToken]
      rw [if_pos hm]
      simp [tokenMissing, hfne]
    | false =>
      simp only [preSaveApiToken]
      rw [if_neg (by simp [hm])]
      exact hm
  · intro hm
    simp only [preSaveApiToken]
    rw [if_pos hm]
  · intro hm
    simp only [preSaveApiToken]
    rw [if_neg (by simp [hm])]
  · simp only [verifyToken]
    rw [hts, if_neg hne]
    simp [List.find?, hs]

/-- Witness for C10: a user saved with no apiToken receives the fresh
token `abcd0123efgh4567` and is then resolvable by it. -/
theorem claim_C10_witness :
    tokenMissing (preSaveApiToken "abcd0123efgh4567" ⟨"u1", "e@x.com", none⟩).apiToken = false
    ∧ (tokenMissing (⟨"u1", "e@x.com", none⟩ : L28TokenUser).apiToken = true →
        (preSaveApiToken "abcd0123efgh4567" ⟨"u1", "e@x.com", none⟩).apiToken
          = some "abcd0123efgh4567")
    ∧ (tokenMissing (⟨"u1", "e@x.com", none⟩ : L28TokenUser).apiToken = false →
        (preSaveApiToken "abcd0123efgh4567" ⟨"u1", "e@x.com", none⟩).apiToken
          = (⟨"u1", "e@x.com", none⟩ : L28TokenUser).apiToken)
    ∧ verifyToken [preSaveApiToken "abcd0123efgh4567" ⟨"u1", "e@x.com", none⟩]
        (some "abcd0123efgh4567")
        = Except.ok { uid := (preSaveApiToken "abcd0123efgh4567" ⟨"u1", "e@x.com", none⟩).id,
                      email := (preSaveApiToken "abcd0123efgh4567" ⟨"u1", "e@x.com", none⟩).email } :=
  claim_C10_apiToken_invariant ⟨"u1", "e@x.com", none⟩ "abcd0123efgh4567" "abcd0123efgh4567"
    (by decide) (by decide) (by decide) (by decide)

end NodeCore
